import Mathlib

/-!
A shallow embedding of the csharpierd daemon supervisor (src/index.ts).

The TypeScript program is a single-threaded sequence of awaited effects.
We model the observable machine state as a `World` record threaded through
each function:

* `now` — the millisecond clock (`Date.now()`); explicit `Bun.sleep(ms)`
  calls advance it, while HTTP calls and file operations are modelled as
  instantaneous.
* `lockFile` — `/tmp/csharpierd.lock`: `none` when absent, otherwise
  `some (mtime, pid)` (modification time and the writer's process id).
* `stateFile` — `/tmp/csharpierd-state.json`: `none` when absent or
  unparsable (`loadState` swallows parse faults), otherwise the parsed
  `ServerState`.
* `selfPid` — `process.pid` of the running CLI invocation.
* `alive` — the OS liveness oracle consulted by `kill -0`; spawning and
  (effective) kill signals update it.
* `httpGet` — the outcome of `fetch("http://localhost:<port>/")` as a
  function of the current time and the port; a process answering or not
  is environment behaviour, so it is an oracle rather than derived state.

Whether a delivered kill signal actually terminates the target is OS /
permission behaviour outside the program, so `killServer` takes a
`KillEnv` saying which of the two signals is effective. Likewise the pid
assigned by `Bun.spawn` comes from the environment (`EnsureEnv.spawnPid`),
and the `POST /format` exchange of `formatCode` is an oracle
(`FormatEnv.post`) from the request payload to the response.
-/

/-- The persisted descriptor, `interface ServerState` in the source. -/
structure ServerState where
  pid : Nat
  port : Nat
  lastAccess : Nat
deriving DecidableEq, Repr

/-- Outcome of an HTTP request: either a response with a status code and
body text, or a network error / timeout (which `fetch` raises). -/
inductive FetchOutcome where
  | response (status : Nat) (text : String)
  | failure
deriving DecidableEq, Repr

/-- The observable machine state threaded through the embedded program. -/
structure World where
  now : Nat
  lockFile : Option (Nat × Nat)
  stateFile : Option ServerState
  selfPid : Nat
  alive : Nat → Bool
  httpGet : Nat → Nat → FetchOutcome

/-- The constant `SERVER_PORT = 18912`. -/
def SERVER_PORT : Nat := 18912

/-- The constant `IDLE_TIMEOUT_MS = 60 * 60 * 1000` (one hour). -/
def IDLE_TIMEOUT_MS : Nat := 60 * 60 * 1000

/-- Embeds `await Bun.sleep(ms)` — advances the clock. -/
def sleep (ms : Nat) (w : World) : World :=
  { w with now := w.now + ms }

/-- Embeds `await Bun.write(LOCK_FILE, String(process.pid))` — creates the lock
marker with the current time as its modification time. -/
def writeLock (w : World) : World :=
  { w with lockFile := some (w.now, w.selfPid) }

/-- Embeds `acquireLock` (src/index.ts:29-46). If the marker exists and its mtime
is more than 10000 ms old it is removed and a fresh one written (true);
a younger marker means the lock is held (false); no marker means the lock
is free (write marker, true). JavaScript compares `Date.now() - mtime >
10000` with signed arithmetic, but a future mtime yields a negative
difference there and `0` under Nat truncation — both fail the `> 10000`
test, so truncated subtraction is faithful. -/
def acquireLock (w : World) : Bool × World :=
  match w.lockFile with
  | some (mtime, _) =>
    if w.now - mtime > 10000 then
      let w1 : World := { w with lockFile := none }
      (true, writeLock w1)
    else
      (false, w)
  | none => (true, writeLock w)

/-- Embeds `releaseLock` (src/index.ts:48-50): `rm -f` the marker. -/
def releaseLock (w : World) : World :=
  { w with lockFile := none }

/-- Embeds `loadState` (src/index.ts:53-61): absent or unparsable file reads as
`none`. -/
def loadState (w : World) : Option ServerState :=
  w.stateFile

/-- Embeds `saveState` (src/index.ts:64-66): overwrite the state file. -/
def saveState (state : ServerState) (w : World) : World :=
  { w with stateFile := some state }

/-- Embeds `isProcessRunning` (src/index.ts:69-76): `kill -0 pid`, with any fault
swallowed into `false` — the oracle already accounts for that. -/
def isProcessRunning (w : World) (pid : Nat) : Bool :=
  w.alive pid

/-- The `response.ok` predicate of the Fetch standard: status in 200..299. -/
def statusOk (status : Nat) : Bool :=
  decide (200 ≤ status ∧ status ≤ 299)

/-- Embeds `isServerResponsive` (src/index.ts:79-88): GET the root path; the
result is `response.ok || response.status === 404`; a network error or
timeout is caught and yields `false`. -/
def isServerResponsive (w : World) (port : Nat) : Bool :=
  match w.httpGet w.now port with
  | FetchOutcome.response status _ => statusOk status || status == 404
  | FetchOutcome.failure => false

/-- Whether each of the two kill signals, if delivered, terminates the
target — environment behaviour (the target may be gone already, owned by
another user, etc.; signal faults are swallowed by the code). -/
structure KillEnv where
  gracefulWorks : Bool
  forceWorks : Bool
deriving DecidableEq, Repr

/-- Mark `pid` as no longer alive in the liveness oracle. -/
def setDead (alive : Nat → Bool) (pid : Nat) : Nat → Bool :=
  fun p => if p = pid then false else alive p

/-- Mark `pid` as alive (a freshly spawned child). -/
def setAlive (alive : Nat → Bool) (pid : Nat) : Nat → Bool :=
  fun p => if p = pid then true else alive p

/-- Embeds `killServer` (src/index.ts:91-102): graceful `kill`, sleep 500 ms,
then `kill -9` if the pid still runs. Each signal's effect is given by
the `KillEnv`. -/
def killServer (e : KillEnv) (pid : Nat) (w : World) : World :=
  let w1 := if e.gracefulWorks then { w with alive := setDead w.alive pid } else w
  let w2 := sleep 500 w1
  if isProcessRunning w2 pid then
    if e.forceWorks then { w2 with alive := setDead w2.alive pid } else w2
  else
    w2

/-- The readiness poll of `startServer` (src/index.ts:121-127): up to `n`
iterations of sleep 200 ms then `isServerResponsive(SERVER_PORT)`; the
first success returns the child's pid, exhaustion returns `none` (the
`throw new Error("Server failed to start within timeout")`). -/
def pollLoop (pid : Nat) : Nat → World → Option Nat × World
  | 0, w => (none, w)
  | Nat.succ n, w =>
    let w1 := sleep 200 w
    if isServerResponsive w1 SERVER_PORT then (some pid, w1)
    else pollLoop pid n w1

/-- Embeds `startServer` (src/index.ts:105-130): spawn the detached child (the
environment assigns `spawnPid`, which becomes alive), then poll for
readiness at most 50 times. -/
def startServer (spawnPid : Nat) (w : World) : Option Nat × World :=
  let w0 : World := { w with alive := setAlive w.alive spawnPid }
  pollLoop spawnPid 50 w0

/-- Embeds `cleanupIdleServer` (src/index.ts:133-142): if `Date.now() -
lastAccess > IDLE_TIMEOUT_MS`, kill the recorded pid and `rm -f` the
state file — with no health check first. -/
def cleanupIdleServer (e : KillEnv) (state : ServerState) (w : World) : World :=
  if w.now - state.lastAccess > IDLE_TIMEOUT_MS then
    let w1 := killServer e state.pid w
    { w1 with stateFile := none }
  else
    w

/-- Environment inputs consumed by one `ensureServer` run: the effect of
the idle-reap kill, of the restart-path kill, and the pid `Bun.spawn`
would assign. -/
structure EnsureEnv where
  cleanupKill : KillEnv
  restartKill : KillEnv
  spawnPid : Nat
deriving DecidableEq, Repr

/-- The lock-retry loop of `ensureServer` (src/index.ts:147-150): up to 5
attempts; a failed attempt sleeps 100 ms (also after the last one); a
successful attempt breaks out at once. -/
def tryAcquireLock : Nat → World → World
  | 0, w => w
  | Nat.succ n, w =>
    match acquireLock w with
    | (true, w1) => w1
    | (false, w1) => tryAcquireLock n (sleep 100 w1)

/-- The "Start new server" tail of `ensureServer` (src/index.ts:176-184):
run `startServer`, then build, persist and return the fresh descriptor;
a startup timeout (`none`) propagates. -/
def startFresh (e : EnsureEnv) (w : World) : Option ServerState × World :=
  match startServer e.spawnPid w with
  | (some pid, w1) =>
    let state : ServerState := { pid := pid, port := SERVER_PORT, lastAccess := w1.now }
    (some state, saveState state w1)
  | (none, w1) => (none, w1)

/-- The `try` block of `ensureServer` (src/index.ts:152-184): load the
descriptor; if present run the idle reap, then verify liveness and
responsiveness of the loaded (pre-reap) descriptor; healthy → return it
unchanged; otherwise kill a lingering pid and fall through to the fresh
start. `none` as first component models the thrown startup-timeout
error. -/
def ensureServerBody (e : EnsureEnv) (w : World) : Option ServerState × World :=
  match loadState w with
  | some state =>
    let w1 := cleanupIdleServer e.cleanupKill state w
    if isProcessRunning w1 state.pid && isServerResponsive w1 state.port then
      (some state, w1)
    else
      let w2 := if isProcessRunning w1 state.pid then killServer e.restartKill state.pid w1 else w1
      startFresh e w2
  | none => startFresh e w

/-- Embeds `ensureServer` (src/index.ts:145-188): bounded lock retry, the `try`
body, and the `finally { releaseLock() }` applied on every exit path —
also when the body propagates the startup-timeout error. -/
def ensureServer (e : EnsureEnv) (w : World) : Option ServerState × World :=
  let w0 := tryAcquireLock 5 w
  let r := ensureServerBody e w0
  (r.1, releaseLock r.2)

/-- The `status` tag of the backend's `/format` response. -/
inductive FormatStatus where
  | Formatted
  | Ignored
  | Failed
  | UnsupportedFile
deriving DecidableEq, Repr

/-- Embeds `interface FormatResult` (src/index.ts:190-194): the parsed JSON body
of a `/format` response; `formattedFile` and `errorMessage` are optional
fields. -/
structure FormatResult where
  formattedFile : Option String
  errorMessage : Option String
  status : FormatStatus
deriving DecidableEq, Repr

/-- Outcome of the `POST /format` exchange: a response with its HTTP
status, raw body text (used by the non-2xx error), and — when the body
parses as JSON — the parsed `FormatResult`; or a network failure. -/
inductive PostOutcome where
  | response (status : Nat) (text : String) (json : Option FormatResult)
  | netFailure
deriving DecidableEq, Repr

/-- The distinguishable failure modes of `formatCode`: the propagated
startup timeout of `ensureServer`, a network fault of the POST, the
non-2xx `Server returned <status>: <body>` error, a 2xx body that is not
JSON, and the `throw new Error(result.errorMessage)` taken when
`formattedFile` is missing (or `""`, which JavaScript treats as falsy). -/
inductive FormatError where
  | startupTimeout
  | network
  | httpError (status : Nat) (body : String)
  | jsonError
  | backendError (message : Option String)
deriving DecidableEq, Repr

deriving instance DecidableEq for Except

/-- Embeds the falsy test `!result.formattedFile` of JavaScript: `undefined` and the
empty string are both falsy. -/
def isFalsyStr : Option String → Bool
  | none => true
  | some s => s == ""

/-- Embeds `path.isAbsolute` for POSIX paths. -/
def isAbsolutePath (p : String) : Bool :=
  p.startsWith "/"

/-- Embeds `path.join(cwd, fileName)`, without the normalization of `.`/`..`
segments (no claim depends on it). -/
def joinPath (a b : String) : String :=
  a ++ "/" ++ b

/-- Environment inputs of one `formatCode` run: those of the inner
`ensureServer`, the invocation's working directory, and the backend's
reply to `POST /format` as a function of the request payload
`(fileName, fileContents)`. -/
structure FormatEnv where
  ensure : EnsureEnv
  cwd : String
  post : String → String → PostOutcome

/-- Embeds `formatCode` (src/index.ts:197-239): ensure a server, resolve the
path hint, POST the payload; non-2xx throws with the response body; on a
parsed 2xx body, refresh `lastAccess` and persist the descriptor BEFORE
inspecting `formattedFile`; a falsy `formattedFile` throws the backend's
`errorMessage`; otherwise return the formatted text. The outer
`catch` only logs and rethrows, so it adds nothing observable. -/
def formatCode (e : FormatEnv) (fileName fileContents : String) (w : World) :
    Except FormatError String × World :=
  match ensureServer e.ensure w with
  | (none, w1) => (Except.error FormatError.startupTimeout, w1)
  | (some state, w1) =>
    let filePath := if isAbsolutePath fileName then fileName else joinPath e.cwd fileName
    match e.post filePath fileContents with
    | PostOutcome.netFailure => (Except.error FormatError.network, w1)
    | PostOutcome.response status text json =>
      if statusOk status then
        match json with
        | none => (Except.error FormatError.jsonError, w1)
        | some result =>
          let state2 : ServerState := { state with lastAccess := w1.now }
          let w2 := saveState state2 w1
          if isFalsyStr result.formattedFile then
            (Except.error (FormatError.backendError result.errorMessage), w2)
          else
            (Except.ok (result.formattedFile.getD ""), w2)
      else
        (Except.error (FormatError.httpError status text), w1)

/-- A minimal world with a given GET oracle — used to exercise the health
check and the start-up paths on concrete inputs. -/
def worldWithGet (g : Nat → Nat → FetchOutcome) : World :=
  { now := 0, lockFile := none, stateFile := none, selfPid := 1,
    alive := fun _ => false, httpGet := g }

/-- Responsiveness of `SERVER_PORT` as the environment would report it at
time `t` — what one iteration of a polling loop observes. -/
def respAt (w : World) (t : Nat) : Bool :=
  isServerResponsive { w with now := t } SERVER_PORT

/-- The world as the idle-reap branch leaves it when both kill signals
are ineffective: lock marker written, 500 ms grace period elapsed, state
file deleted, liveness untouched. -/
def reapedStubbornW (w : World) : World :=
  { w with now := w.now + 500, lockFile := some (w.now, w.selfPid), stateFile := none }

/-- The world as the idle-reap branch leaves it when the graceful kill is
effective: lock marker written, target pid marked dead, 500 ms grace
period elapsed, state file deleted. -/
def reapedKilledW (w : World) (pid : Nat) : World :=
  { w with now := w.now + 500, lockFile := some (w.now, w.selfPid), stateFile := none, alive := setDead w.alive pid }

/-- A lock-free test world. -/
def lockFreeW : World := worldWithGet (fun _ _ => FetchOutcome.failure)

/-- A world whose lock marker is 15 s old (stale). -/
def staleLockW : World := { lockFreeW with now := 20000, lockFile := some (5000, 9) }

/-- A world whose lock marker is 5 s old (fresh). -/
def freshLockW : World := { lockFreeW with now := 20000, lockFile := some (15000, 9) }

/-- An environment whose kill signals are all effective and whose spawn
yields pid 99. -/
def allKillsEnv : EnsureEnv :=
  { cleanupKill := { gracefulWorks := true, forceWorks := true },
    restartKill := { gracefulWorks := true, forceWorks := true },
    spawnPid := 99 }

/-- An environment whose kill signals are all ineffective (e.g. EPERM,
swallowed by the code) and whose spawn yields pid 99. -/
def stubbornEnv : EnsureEnv :=
  { cleanupKill := { gracefulWorks := false, forceWorks := false },
    restartKill := { gracefulWorks := false, forceWorks := false },
    spawnPid := 99 }

/-- A world holding a healthy, recently used server: pid 42 alive, every
GET answered with 200, descriptor touched at the current instant. -/
def healthyW : World :=
  { now := 5000000, lockFile := none,
    stateFile := some { pid := 42, port := SERVER_PORT, lastAccess := 5000000 },
    selfPid := 7, alive := fun p => p == 42,
    httpGet := fun _ _ => FetchOutcome.response 200 "" }

/-- Like `healthyW` but with the descriptor last touched 4 000 000 ms ago
— far past the one-hour idle timeout. -/
def expiredW : World :=
  { now := 5000000, lockFile := none,
    stateFile := some { pid := 42, port := SERVER_PORT, lastAccess := 1000000 },
    selfPid := 7, alive := fun p => p == 42,
    httpGet := fun _ _ => FetchOutcome.response 200 "" }

/-- A world with no persisted server and a dead network: every GET fails. -/
def deadW : World := worldWithGet (fun _ _ => FetchOutcome.failure)

/-- A backend that echoes the submitted contents back as `formattedFile`
with status `Formatted`. -/
def echoEnv : FormatEnv :=
  { ensure := allKillsEnv, cwd := "/work",
    post := fun _ c =>
      PostOutcome.response 200 ""
        (some { formattedFile := some c, errorMessage := none, status := FormatStatus.Formatted }) }

/-- A backend that reports a parse failure: 2xx, no `formattedFile`,
`errorMessage` "parse error". -/
def failEnv : FormatEnv :=
  { ensure := allKillsEnv, cwd := "/work",
    post := fun _ _ =>
      PostOutcome.response 200 ""
        (some { formattedFile := none, errorMessage := some "parse error",
                status := FormatStatus.Failed }) }

/-- A backend that answers `POST /format` with HTTP 500 and body "boom". -/
def httpErrEnv : FormatEnv :=
  { ensure := allKillsEnv, cwd := "/work",
    post := fun _ _ => PostOutcome.response 500 "boom" none }

/-- A well-behaved backend whose reply carries `formattedFile` PRESENT but
equal to the empty string (a legal formatting of an empty input). -/
def emptyEchoEnv : FormatEnv :=
  { ensure := allKillsEnv, cwd := "/work",
    post := fun _ _ =>
      PostOutcome.response 200 ""
        (some { formattedFile := some "", errorMessage := none,
                status := FormatStatus.Formatted }) }

/-- Like `healthyW` but last touched 1 000 000 ms ago — healthy and well
inside the idle timeout, yet with a `lastAccess` visibly older than
`now`. -/
def staleOkW : World :=
  { healthyW with stateFile := some { pid := 42, port := SERVER_PORT, lastAccess := 4000000 } }

/-- C2 (code_bug record): the responsiveness check at the failing input.
A GET answered with HTTP 500 — an HTTP response — is classified as NOT
responsive, because line 84 computes `response.ok || status === 404`
rather than "any response"; 200 and 404 are accepted and a network
failure is rejected as the claim says. -/
theorem isServerResponsive_rejects_500 :
    isServerResponsive (worldWithGet (fun _ _ => FetchOutcome.response 500 "err")) SERVER_PORT
      = false
    ∧ isServerResponsive (worldWithGet (fun _ _ => FetchOutcome.response 404 "nf")) SERVER_PORT
      = true
    ∧ isServerResponsive (worldWithGet (fun _ _ => FetchOutcome.response 200 "ok")) SERVER_PORT
      = true
    ∧ isServerResponsive (worldWithGet (fun _ _ => FetchOutcome.failure)) SERVER_PORT
      = false := by
  decide

/-- C4: `acquire()` semantics. No marker → create one holding the caller's
pid, return true. Marker older than 10 s → replaced by a fresh marker,
return true. Marker within the threshold → return false, world
untouched. -/
theorem acquireLock_spec (w : World) :
    (w.lockFile = none →
      acquireLock w = (true, { w with lockFile := some (w.now, w.selfPid) }))
    ∧ (∀ mtime pid, w.lockFile = some (mtime, pid) → w.now - mtime > 10000 →
      acquireLock w = (true, { w with lockFile := some (w.now, w.selfPid) }))
    ∧ (∀ mtime pid, w.lockFile = some (mtime, pid) → ¬ w.now - mtime > 10000 →
      acquireLock w = (false, w)) := by
  refine ⟨fun h => ?_, fun mtime pid h hstale => ?_, fun mtime pid h hfresh => ?_⟩ <;>
    simp_all [acquireLock, writeLock]

/-- Witness for C4 at concrete worlds: free lock acquired, stale lock
replaced, fresh lock refused. -/
theorem acquireLock_spec_witness :
    acquireLock lockFreeW
      = (true, { lockFreeW with lockFile := some (lockFreeW.now, lockFreeW.selfPid) })
    ∧ acquireLock staleLockW
      = (true, { staleLockW with lockFile := some (staleLockW.now, staleLockW.selfPid) })
    ∧ acquireLock freshLockW = (false, freshLockW) :=
  ⟨(acquireLock_spec lockFreeW).1 rfl,
   (acquireLock_spec staleLockW).2.1 5000 9 rfl (by decide),
   (acquireLock_spec freshLockW).2.2 15000 9 rfl (by decide)⟩

/-- C8: `releaseLock` runs on every exit path of `ensureServer` — whether
it returns a reused descriptor, a fresh one, or propagates the startup
timeout (`none`), the lock marker is gone afterwards. -/
theorem ensureServer_always_releases (e : EnsureEnv) (w : World) :
    ((ensureServer e w).2).lockFile = none := rfl

/-- The poll of `startServer` returns the child's pid on the FIRST
responsive attempt: if attempts `0..j-1` observe an unresponsive port and
attempt `j` (zero-based, at time `now + 200·(j+1)`) observes a responsive
one, the loop stops there. -/
theorem pollLoop_first_success (pid : Nat) :
    ∀ (n j : Nat) (w : World), j < n →
      (∀ k, k < j → respAt w (w.now + 200 * (k + 1)) = false) →
      respAt w (w.now + 200 * (j + 1)) = true →
      pollLoop pid n w = (some pid, { w with now := w.now + 200 * (j + 1) }) := by
  intro n
  induction n with
  | zero =>
    intro j w hj _ _
    exact absurd hj (Nat.not_lt_zero j)
  | succ n ih =>
    intro j w hj hfirst hsucc
    cases j with
    | zero =>
      have h1 : isServerResponsive (sleep 200 w) SERVER_PORT = true := by
        simpa [respAt, sleep] using hsucc
      simp only [pollLoop]
      rw [h1]
      simp only [if_true]
      show (some pid, ({ w with now := w.now + 200 } : World))
        = (some pid, ({ w with now := w.now + 200 * (0 + 1) } : World))
      norm_num
    | succ j' =>
      have h0 : isServerResponsive (sleep 200 w) SERVER_PORT = false := by
        simpa [respAt, sleep] using hfirst 0 (Nat.succ_pos j')
      have hrec := ih j' (sleep 200 w) (Nat.lt_of_succ_lt_succ hj)
        (fun k hk => by
          have h := hfirst (k + 1) (Nat.succ_lt_succ hk)
          have harith : w.now + 200 * (k + 1 + 1) = w.now + 200 + 200 * (k + 1) := by ring
          rw [harith] at h
          exact h)
        (by
          have harith : w.now + 200 * (j' + 1 + 1) = w.now + 200 + 200 * (j' + 1) := by ring
          rw [harith] at hsucc
          exact hsucc)
      have harith2 : w.now + 200 + 200 * (j' + 1) = w.now + 200 * (j' + 1 + 1) := by ring
      simp only [pollLoop]
      rw [h0]
      simp only [Bool.false_eq_true, if_false]
      rw [hrec]
      show (some pid, ({ w with now := w.now + 200 + 200 * (j' + 1) } : World))
        = (some pid, ({ w with now := w.now + 200 * (j' + 1 + 1) } : World))
      rw [harith2]

/-- The poll of `startServer` gives up after exhausting its attempts: if
no attempt in the budget observes a responsive port, the loop returns
`none` having slept `200·n` ms. -/
theorem pollLoop_timeout (pid : Nat) :
    ∀ (n : Nat) (w : World),
      (∀ k, k < n → respAt w (w.now + 200 * (k + 1)) = false) →
      pollLoop pid n w = (none, { w with now := w.now + 200 * n }) := by
  intro n
  induction n with
  | zero => intro w _; rfl
  | succ n ih =>
    intro w h
    have h0 : isServerResponsive (sleep 200 w) SERVER_PORT = false := by
      simpa [respAt, sleep] using h 0 (Nat.succ_pos n)
    have hrec := ih (sleep 200 w)
      (fun k hk => by
        have hx := h (k + 1) (Nat.succ_lt_succ hk)
        have harith : w.now + 200 * (k + 1 + 1) = w.now + 200 + 200 * (k + 1) := by ring
        rw [harith] at hx
        exact hx)
    have harith2 : w.now + 200 + 200 * n = w.now + 200 * (n + 1) := by ring
    simp only [pollLoop]
    rw [h0]
    simp only [Bool.false_eq_true, if_false]
    rw [hrec]
    show (none, ({ w with now := w.now + 200 + 200 * n } : World))
      = (none, ({ w with now := w.now + 200 * (n + 1) } : World))
    rw [harith2]

@[simp] lemma writeLock_now (w : World) : (writeLock w).now = w.now := rfl
@[simp] lemma writeLock_stateFile (w : World) : (writeLock w).stateFile = w.stateFile := rfl
@[simp] lemma writeLock_alive (w : World) : (writeLock w).alive = w.alive := rfl
@[simp] lemma writeLock_httpGet (w : World) : (writeLock w).httpGet = w.httpGet := rfl
@[simp] lemma writeLock_lockFile (w : World) :
    (writeLock w).lockFile = some (w.now, w.selfPid) := rfl
@[simp] lemma releaseLock_now (w : World) : (releaseLock w).now = w.now := rfl
@[simp] lemma releaseLock_stateFile (w : World) : (releaseLock w).stateFile = w.stateFile := rfl
@[simp] lemma releaseLock_lockFile (w : World) : (releaseLock w).lockFile = none := rfl
@[simp] lemma saveState_stateFile (s : ServerState) (w : World) :
    (saveState s w).stateFile = some s := rfl
@[simp] lemma saveState_now (s : ServerState) (w : World) : (saveState s w).now = w.now := rfl
@[simp] lemma sleep_now (ms : Nat) (w : World) : (sleep ms w).now = w.now + ms := rfl
@[simp] lemma sleep_stateFile (ms : Nat) (w : World) :
    (sleep ms w).stateFile = w.stateFile := rfl
@[simp] lemma sleep_alive (ms : Nat) (w : World) : (sleep ms w).alive = w.alive := rfl
@[simp] lemma sleep_httpGet (ms : Nat) (w : World) : (sleep ms w).httpGet = w.httpGet := rfl

/-- A free lock is taken on the first attempt of the retry loop. -/
lemma tryAcquireLock_free (n : Nat) (w : World) (hlock : w.lockFile = none) :
    tryAcquireLock (n + 1) w = writeLock w := by
  simp only [tryAcquireLock, acquireLock, hlock]

/-- Unfolds `ensureServer` under a free lock: the marker is written, the body runs,
and the `finally` releases the marker. -/
lemma ensureServer_eq_body (e : EnsureEnv) (w : World) (hlock : w.lockFile = none) :
    ensureServer e w
      = ((ensureServerBody e (writeLock w)).1,
         releaseLock (ensureServerBody e (writeLock w)).2) := by
  have h : tryAcquireLock 5 w = writeLock w := tryAcquireLock_free 4 w hlock
  simp only [ensureServer, h]

/-- A kill whose two signals are both ineffective only spends the 500 ms
grace period. -/
lemma killServer_ineffective (e : KillEnv) (pid : Nat) (w : World)
    (hgrace : e.gracefulWorks = false) (hforce : e.forceWorks = false) :
    killServer e pid w = sleep 500 w := by
  simp only [killServer, hgrace, hforce, Bool.false_eq_true, if_false, ite_self]

/-- A kill whose graceful signal is effective marks the pid dead and
spends the 500 ms grace period; the forced signal is then skipped. -/
lemma killServer_graceful (e : KillEnv) (pid : Nat) (w : World)
    (hgrace : e.gracefulWorks = true) :
    killServer e pid w = { w with alive := setDead w.alive pid, now := w.now + 500 } := by
  have hdead : setDead w.alive pid pid = false := by simp [setDead]
  simp only [killServer, hgrace, if_true, isProcessRunning, sleep]
  simp [hdead]

/-- The idle reap does nothing to a descriptor inside the timeout. -/
lemma cleanupIdleServer_live (e : KillEnv) (s : ServerState) (w : World)
    (hidle : ¬ w.now - s.lastAccess > IDLE_TIMEOUT_MS) :
    cleanupIdleServer e s w = w := by
  simp only [cleanupIdleServer, if_neg hidle]

/-- The idle reap on an expired descriptor kills the pid and deletes the
state file, with no health check. -/
lemma cleanupIdleServer_expired (e : KillEnv) (s : ServerState) (w : World)
    (hexp : w.now - s.lastAccess > IDLE_TIMEOUT_MS) :
    cleanupIdleServer e s w = { killServer e s.pid w with stateFile := none } := by
  simp only [cleanupIdleServer, if_pos hexp]

/-- The `try` body on a healthy, non-expired descriptor returns it with
the world untouched. -/
lemma ensureServerBody_healthy (e : EnsureEnv) (w : World) (s : ServerState)
    (hstate : w.stateFile = some s)
    (hidle : ¬ w.now - s.lastAccess > IDLE_TIMEOUT_MS)
    (halive : w.alive s.pid = true)
    (hresp : isServerResponsive w s.port = true) :
    ensureServerBody e w = (some s, w) := by
  have hclean : cleanupIdleServer e.cleanupKill s w = w :=
    cleanupIdleServer_live e.cleanupKill s w hidle
  simp only [ensureServerBody, loadState, hstate, hclean, isProcessRunning, halive, hresp,
    Bool.and_self, if_true]

/-- Running `ensureServer` on a healthy, non-expired server returns the stored
descriptor and leaves the world exactly as found. -/
lemma ensureServer_healthy (e : EnsureEnv) (w : World) (s : ServerState)
    (hlock : w.lockFile = none)
    (hstate : w.stateFile = some s)
    (hidle : ¬ w.now - s.lastAccess > IDLE_TIMEOUT_MS)
    (halive : w.alive s.pid = true)
    (hresp : isServerResponsive w s.port = true) :
    ensureServer e w = (some s, w) := by
  have hbody : ensureServerBody e (writeLock w) = (some s, writeLock w) :=
    ensureServerBody_healthy e (writeLock w) s hstate hidle halive hresp
  have hrel : releaseLock (writeLock w) = w := by
    show ({ w with lockFile := none } : World) = w
    rw [← hlock]
  rw [ensureServer_eq_body e w hlock, hbody]
  simpa using hrel

/-- C3: idempotence of `ensureServer` on a healthy server. With the lock
free, a persisted descriptor that is not idle-expired, a live pid and a
responsive port, `ensureServer` returns the stored descriptor unchanged —
same pid, port and `lastAccess` — and leaves the world (in particular the
persisted state) exactly as found; a second call in quick succession
returns the same descriptor again. `lastAccess` is untouched (it advances
only inside `formatCode`). -/
theorem ensureServer_healthy_idempotent (e : EnsureEnv) (w : World) (s : ServerState)
    (hlock : w.lockFile = none)
    (hstate : w.stateFile = some s)
    (hidle : ¬ w.now - s.lastAccess > IDLE_TIMEOUT_MS)
    (halive : w.alive s.pid = true)
    (hresp : isServerResponsive w s.port = true) :
    ensureServer e w = (some s, w)
    ∧ ensureServer e (ensureServer e w).2 = (some s, w) := by
  have h1 : ensureServer e w = (some s, w) :=
    ensureServer_healthy e w s hlock hstate hidle halive hresp
  exact ⟨h1, by rw [h1]; exact h1⟩

/-- Witness for C3: on `healthyW` both calls return the stored descriptor
and the world is untouched. -/
theorem ensureServer_healthy_idempotent_witness :
    ensureServer allKillsEnv healthyW
      = (some { pid := 42, port := SERVER_PORT, lastAccess := 5000000 }, healthyW)
    ∧ ensureServer allKillsEnv (ensureServer allKillsEnv healthyW).2
      = (some { pid := 42, port := SERVER_PORT, lastAccess := 5000000 }, healthyW) :=
  ensureServer_healthy_idempotent allKillsEnv healthyW
    { pid := 42, port := SERVER_PORT, lastAccess := 5000000 }
    rfl rfl (by decide) rfl rfl

/-- C10: after the idle-reap branch kills the pid and deletes the state
file, `ensureServer` continues with the PRE-reap descriptor value (no
re-load). If the kill signals were ineffective and the pid is still alive
and its port responsive 500 ms later, `ensureServer` returns the reaped
descriptor without persisting anything: the store is left empty while a
descriptor is returned, so the returned descriptor is not the persisted
one. -/
theorem ensureServer_reap_keeps_stale_descriptor (e : EnsureEnv) (w : World) (s : ServerState)
    (hlock : w.lockFile = none)
    (hstate : w.stateFile = some s)
    (hexp : w.now - s.lastAccess > IDLE_TIMEOUT_MS)
    (hgrace : e.cleanupKill.gracefulWorks = false)
    (hforce : e.cleanupKill.forceWorks = false)
    (halive : w.alive s.pid = true)
    (hresp : isServerResponsive (sleep 500 w) s.port = true) :
    (ensureServer e w).1 = some s
    ∧ ((ensureServer e w).2).stateFile = none := by
  have hexp2 : (writeLock w).now - s.lastAccess > IDLE_TIMEOUT_MS := hexp
  have hclean : cleanupIdleServer e.cleanupKill s (writeLock w) = reapedStubbornW w := by
    rw [cleanupIdleServer_expired e.cleanupKill s (writeLock w) hexp2,
      killServer_ineffective e.cleanupKill s.pid (writeLock w) hgrace hforce]
    rfl
  have halive2 : (reapedStubbornW w).alive s.pid = true := halive
  have hresp2 : isServerResponsive (reapedStubbornW w) s.port = true := hresp
  have hbody : ensureServerBody e (writeLock w) = (some s, reapedStubbornW w) := by
    simp only [ensureServerBody, loadState, writeLock_stateFile, hstate, hclean,
      isProcessRunning, halive2, hresp2, Bool.and_self, if_true]
  rw [ensureServer_eq_body e w hlock, hbody]
  exact ⟨rfl, rfl⟩

/-- Witness for C10: on `expiredW` with ineffective kills, the old
descriptor (pid 42, lastAccess 1000000) is returned while the store ends
up empty. -/
theorem ensureServer_reap_keeps_stale_descriptor_witness :
    (ensureServer stubbornEnv expiredW).1
      = some { pid := 42, port := SERVER_PORT, lastAccess := 1000000 }
    ∧ ((ensureServer stubbornEnv expiredW).2).stateFile = none :=
  ensureServer_reap_keeps_stale_descriptor stubbornEnv expiredW
    { pid := 42, port := SERVER_PORT, lastAccess := 1000000 }
    rfl rfl (by decide) rfl rfl rfl rfl

/-- C1 counterexample: a persisted descriptor idle for 4 000 000 ms (past
the 1-hour timeout) whose process survives the kill attempt and stays
responsive. `ensureServer` returns the OLD descriptor — old pid 42, old
lastAccess — and persists nothing: no fresh server descriptor (pid 99,
current timestamp) is created, contradicting the claim that after the
reap a fresh server is spawned, persisted and returned regardless of the
process's health. -/
theorem ensureServer_idle_reap_counterexample :
    (ensureServer stubbornEnv expiredW).1
      = some { pid := 42, port := SERVER_PORT, lastAccess := 1000000 }
    ∧ ((ensureServer stubbornEnv expiredW).2).stateFile = none
    ∧ (ensureServer stubbornEnv expiredW).1
      ≠ some { pid := stubbornEnv.spawnPid, port := SERVER_PORT,
               lastAccess := ((ensureServer stubbornEnv expiredW).2).now } := by
  decide

/-- The fresh-start tail on first poll success: the descriptor built from
the spawned pid, the fixed port and the clock at the successful attempt
is persisted and returned. -/
lemma startFresh_first_success (e : EnsureEnv) (w : World) (j : Nat) (hj : j < 50)
    (hfirst : ∀ k, k < j → respAt w (w.now + 200 * (k + 1)) = false)
    (hsucc : respAt w (w.now + 200 * (j + 1)) = true) :
    startFresh e w
      = (some { pid := e.spawnPid, port := SERVER_PORT, lastAccess := w.now + 200 * (j + 1) },
         saveState { pid := e.spawnPid, port := SERVER_PORT, lastAccess := w.now + 200 * (j + 1) }
           { w with alive := setAlive w.alive e.spawnPid, now := w.now + 200 * (j + 1) }) := by
  have hpoll := pollLoop_first_success e.spawnPid 50 j
    { w with alive := setAlive w.alive e.spawnPid } hj (fun k hk => hfirst k hk) hsucc
  simp only [startFresh, startServer]
  rw [hpoll]

/-- The fresh-start tail when no poll attempt succeeds: the startup
timeout propagates (`none`) after the full 50 × 200 ms budget. -/
lemma startFresh_timeout (e : EnsureEnv) (w : World)
    (hnone : ∀ k, k < 50 → respAt w (w.now + 200 * (k + 1)) = false) :
    startFresh e w
      = (none, { w with alive := setAlive w.alive e.spawnPid, now := w.now + 10000 }) := by
  have hpoll := pollLoop_timeout e.spawnPid 50
    { w with alive := setAlive w.alive e.spawnPid } (fun k hk => hnone k hk)
  simp only [startFresh, startServer]
  rw [hpoll]

/-- C1 (amended): on a persisted descriptor past the 1-hour idle timeout,
`ensureServer` stops the referenced pid and deletes the persisted
descriptor regardless of the process's health, so a load right after the
reap returns no descriptor. It does NOT re-load: it continues with the
pre-reap in-memory descriptor. Provided the graceful kill actually
terminated the process, and the spawned server first becomes responsive
on poll attempt `j` (of the 50 allowed), it spawns a fresh server,
persists a new descriptor carrying the spawned pid and the then-current
timestamp, and returns it. -/
theorem ensureServer_idle_reap_restart (e : EnsureEnv) (w : World) (s : ServerState) (j : Nat)
    (hlock : w.lockFile = none)
    (hstate : w.stateFile = some s)
    (hexp : w.now - s.lastAccess > IDLE_TIMEOUT_MS)
    (hgrace : e.cleanupKill.gracefulWorks = true)
    (hj : j < 50)
    (hfirst : ∀ k, k < j → respAt w (w.now + 500 + 200 * (k + 1)) = false)
    (hsucc : respAt w (w.now + 500 + 200 * (j + 1)) = true) :
    (cleanupIdleServer e.cleanupKill s (writeLock w)).stateFile = none
    ∧ (ensureServer e w).1
      = some { pid := e.spawnPid, port := SERVER_PORT, lastAccess := w.now + 500 + 200 * (j + 1) }
    ∧ ((ensureServer e w).2).stateFile
      = some { pid := e.spawnPid, port := SERVER_PORT, lastAccess := w.now + 500 + 200 * (j + 1) } := by
  have hexp2 : (writeLock w).now - s.lastAccess > IDLE_TIMEOUT_MS := hexp
  have hclean : cleanupIdleServer e.cleanupKill s (writeLock w) = reapedKilledW w s.pid := by
    rw [cleanupIdleServer_expired e.cleanupKill s (writeLock w) hexp2,
      killServer_graceful e.cleanupKill s.pid (writeLock w) hgrace]
    rfl
  have hdead : (reapedKilledW w s.pid).alive s.pid = false := by
    simp [reapedKilledW, setDead]
  have hbody : ensureServerBody e (writeLock w) = startFresh e (reapedKilledW w s.pid) := by
    simp only [ensureServerBody, loadState, writeLock_stateFile, hstate, hclean,
      isProcessRunning, hdead, Bool.false_and, Bool.false_eq_true, if_false]
  have hsf := startFresh_first_success e (reapedKilledW w s.pid) j hj
    (fun k hk => hfirst k hk) hsucc
  refine ⟨by rw [hclean]; rfl, ?_, ?_⟩
  · rw [ensureServer_eq_body e w hlock, hbody, hsf]
    rfl
  · rw [ensureServer_eq_body e w hlock, hbody, hsf]
    rfl

/-- Witness for C1 (amended) on `expiredW` with an effective graceful
kill: the reap empties the store, then a fresh descriptor with pid 99 and
timestamp 5000700 is persisted and returned. -/
theorem ensureServer_idle_reap_restart_witness :
    (cleanupIdleServer allKillsEnv.cleanupKill
        { pid := 42, port := SERVER_PORT, lastAccess := 1000000 } (writeLock expiredW)).stateFile
      = none
    ∧ (ensureServer allKillsEnv expiredW).1
      = some { pid := allKillsEnv.spawnPid, port := SERVER_PORT,
               lastAccess := expiredW.now + 500 + 200 * (0 + 1) }
    ∧ ((ensureServer allKillsEnv expiredW).2).stateFile
      = some { pid := allKillsEnv.spawnPid, port := SERVER_PORT,
               lastAccess := expiredW.now + 500 + 200 * (0 + 1) } :=
  ensureServer_idle_reap_restart allKillsEnv expiredW
    { pid := 42, port := SERVER_PORT, lastAccess := 1000000 } 0
    rfl rfl (by decide) rfl (by decide)
    (fun k hk => absurd hk (Nat.not_lt_zero k)) rfl

/-- C5: with no persisted server, `ensureServer` runs the spawn-and-poll
procedure: at most 50 attempts at 200 ms intervals; if the first
responsive attempt is attempt `j`, the returned descriptor carries the
spawned child's pid; if no attempt succeeds, the startup-timeout error
(`none`) propagates uncaught out of `ensureServer` after exactly
50 × 200 ms = 10 s, with no retry and nothing persisted. -/
theorem startServer_polling_spec (e : EnsureEnv) (w : World)
    (hlock : w.lockFile = none)
    (hstate : w.stateFile = none) :
    (∀ j, j < 50 →
      (∀ k, k < j → respAt w (w.now + 200 * (k + 1)) = false) →
      respAt w (w.now + 200 * (j + 1)) = true →
      (ensureServer e w).1
        = some { pid := e.spawnPid, port := SERVER_PORT, lastAccess := w.now + 200 * (j + 1) })
    ∧ ((∀ k, k < 50 → respAt w (w.now + 200 * (k + 1)) = false) →
      (ensureServer e w).1 = none
      ∧ ((ensureServer e w).2).now = w.now + 10000
      ∧ ((ensureServer e w).2).stateFile = none) := by
  have hbody : ensureServerBody e (writeLock w) = startFresh e (writeLock w) := by
    simp only [ensureServerBody, loadState, writeLock_stateFile, hstate]
  constructor
  · intro j hj hfirst hsucc
    have hsf := startFresh_first_success e (writeLock w) j hj (fun k hk => hfirst k hk) hsucc
    rw [ensureServer_eq_body e w hlock, hbody, hsf]
    rfl
  · intro hnone
    have hsf := startFresh_timeout e (writeLock w) (fun k hk => hnone k hk)
    rw [ensureServer_eq_body e w hlock, hbody, hsf]
    exact ⟨rfl, rfl, hstate⟩

/-- Witness for C5 on `deadW` (no state, network dead): the startup
timeout propagates after 10 000 ms with nothing persisted. -/
theorem startServer_polling_spec_witness :
    (ensureServer allKillsEnv deadW).1 = none
    ∧ ((ensureServer allKillsEnv deadW).2).now = deadW.now + 10000
    ∧ ((ensureServer allKillsEnv deadW).2).stateFile = none :=
  (startServer_polling_spec allKillsEnv deadW rfl rfl).2 (by decide)

/-- Behaviour of `formatCode` when the POST is answered with a non-2xx status: the
`Server returned <status>: <body>` error is thrown and the world is left
as `ensureServer` left it (no `lastAccess` refresh). -/
lemma formatCode_http_error (e : FormatEnv) (w : World) (s : ServerState)
    (fileName contents : String) (status : Nat) (txt : String) (json : Option FormatResult)
    (hens : ensureServer e.ensure w = (some s, w))
    (hstatus : statusOk status = false)
    (hpost : ∀ p, e.post p contents = PostOutcome.response status txt json) :
    formatCode e fileName contents w = (Except.error (FormatError.httpError status txt), w) := by
  simp only [formatCode, hens, hpost, hstatus, Bool.false_eq_true, if_false]

/-- Behaviour of `formatCode` when the POST is answered 2xx with a parsed body whose
`formattedFile` is falsy (absent or `""`): `lastAccess` is refreshed and
persisted FIRST, then the backend's `errorMessage` is thrown. -/
lemma formatCode_falsy (e : FormatEnv) (w : World) (s : ServerState)
    (fileName contents : String) (status : Nat) (txt : String) (r : FormatResult)
    (hens : ensureServer e.ensure w = (some s, w))
    (hst : statusOk status = true)
    (hpost : ∀ p, e.post p contents = PostOutcome.response status txt (some r))
    (hfalsy : isFalsyStr r.formattedFile = true) :
    formatCode e fileName contents w
      = (Except.error (FormatError.backendError r.errorMessage),
         saveState { s with lastAccess := w.now } w) := by
  simp only [formatCode, hens, hpost, hst, if_true, hfalsy]

/-- Behaviour of `formatCode` when the POST is answered 2xx with a parsed body whose
`formattedFile` is truthy: `lastAccess` is refreshed and persisted and
the formatted text is returned. -/
lemma formatCode_formatted (e : FormatEnv) (w : World) (s : ServerState)
    (fileName contents : String) (status : Nat) (txt : String) (r : FormatResult)
    (hens : ensureServer e.ensure w = (some s, w))
    (hst : statusOk status = true)
    (hpost : ∀ p, e.post p contents = PostOutcome.response status txt (some r))
    (hok : isFalsyStr r.formattedFile = false) :
    formatCode e fileName contents w
      = (Except.ok (r.formattedFile.getD ""),
         saveState { s with lastAccess := w.now } w) := by
  simp only [formatCode, hens, hpost, hst, if_true, hok, Bool.false_eq_true, if_false]

/-- C6 (amended): for every NON-EMPTY `contents` and every file name, if
the server is healthy and the backend answers `POST /format` with a 2xx
status and body `formattedFile = contents, status = Formatted`, then
`formatCode` succeeds and returns exactly `contents`. (For `contents =
""` the code's JavaScript falsy test `!result.formattedFile` misfires —
see the counterexample.) -/
theorem formatCode_roundtrip (e : FormatEnv) (w : World) (s : ServerState)
    (fileName contents : String) (status : Nat) (txt : String)
    (hlock : w.lockFile = none)
    (hstate : w.stateFile = some s)
    (hidle : ¬ w.now - s.lastAccess > IDLE_TIMEOUT_MS)
    (halive : w.alive s.pid = true)
    (hresp : isServerResponsive w s.port = true)
    (hst : statusOk status = true)
    (hne : contents ≠ "")
    (hpost : ∀ p, e.post p contents
      = PostOutcome.response status txt
          (some { formattedFile := some contents, errorMessage := none,
                  status := FormatStatus.Formatted })) :
    (formatCode e fileName contents w).1 = Except.ok contents := by
  have hens : ensureServer e.ensure w = (some s, w) :=
    ensureServer_healthy e.ensure w s hlock hstate hidle halive hresp
  have hok : isFalsyStr (Option.some contents) = false := by
    simp [isFalsyStr, hne]
  rw [formatCode_formatted e w s fileName contents status txt
    { formattedFile := some contents, errorMessage := none, status := FormatStatus.Formatted }
    hens hst hpost hok]
  rfl

/-- Witness for C6 (amended): the echo backend round-trips a non-empty
file through `formatCode` unchanged. -/
theorem formatCode_roundtrip_witness :
    (formatCode echoEnv "Program.cs" "class C;" healthyW).1 = Except.ok "class C;" :=
  formatCode_roundtrip echoEnv healthyW
    { pid := 42, port := SERVER_PORT, lastAccess := 5000000 }
    "Program.cs" "class C;" 200 ""
    rfl rfl (by decide) rfl rfl rfl (by decide) (fun _ => rfl)

/-- C6 counterexample: with the SAME echo backend, `formatCode` on the
empty string fails (`!""` is truthy in JavaScript, so the success branch
is skipped and `Error(undefined)` is thrown) instead of returning `""` —
the round-trip claim is false at `contents = ""`. -/
theorem formatCode_roundtrip_counterexample :
    (formatCode echoEnv "Program.cs" "" healthyW).1
      = Except.error (FormatError.backendError none)
    ∧ (formatCode echoEnv "Program.cs" "" healthyW).1 ≠ Except.ok "" := by
  decide

/-- C7 (amended): given a healthy server, `formatCode` fails in exactly
these backend cases — a non-2xx HTTP status fails with an error carrying
the HTTP status and response body, and a 2xx response whose parsed body
has a falsy `formattedFile` (ABSENT — or, beyond the claim's wording,
empty, which is why the original "exactly" is false) fails with the
backend-supplied `errorMessage`. -/
theorem formatCode_backend_failures (e : FormatEnv) (w : World) (s : ServerState)
    (fileName contents : String)
    (hlock : w.lockFile = none)
    (hstate : w.stateFile = some s)
    (hidle : ¬ w.now - s.lastAccess > IDLE_TIMEOUT_MS)
    (halive : w.alive s.pid = true)
    (hresp : isServerResponsive w s.port = true) :
    (∀ status txt json, statusOk status = false →
      (∀ p, e.post p contents = PostOutcome.response status txt json) →
      (formatCode e fileName contents w).1 = Except.error (FormatError.httpError status txt))
    ∧ (∀ status txt r, statusOk status = true → isFalsyStr r.formattedFile = true →
      (∀ p, e.post p contents = PostOutcome.response status txt (some r)) →
      (formatCode e fileName contents w).1
        = Except.error (FormatError.backendError r.errorMessage)) := by
  have hens : ensureServer e.ensure w = (some s, w) :=
    ensureServer_healthy e.ensure w s hlock hstate hidle halive hresp
  constructor
  · intro status txt json hstatus hpost
    rw [formatCode_http_error e w s fileName contents status txt json hens hstatus hpost]
  · intro status txt r hst hfalsy hpost
    rw [formatCode_falsy e w s fileName contents status txt r hens hst hpost hfalsy]

/-- Witness for C7 (amended): a 500 reply surfaces as an error carrying
status and body; a 2xx reply with no `formattedFile` and `errorMessage`
"parse error" surfaces as a failure carrying "parse error". -/
theorem formatCode_backend_failures_witness :
    (formatCode httpErrEnv "A.cs" "x" healthyW).1
      = Except.error (FormatError.httpError 500 "boom")
    ∧ (formatCode failEnv "A.cs" "x" healthyW).1
      = Except.error (FormatError.backendError (some "parse error")) :=
  ⟨(formatCode_backend_failures httpErrEnv healthyW
      { pid := 42, port := SERVER_PORT, lastAccess := 5000000 } "A.cs" "x"
      rfl rfl (by decide) rfl rfl).1 500 "boom" none rfl (fun _ => rfl),
   (formatCode_backend_failures failEnv healthyW
      { pid := 42, port := SERVER_PORT, lastAccess := 5000000 } "A.cs" "x"
      rfl rfl (by decide) rfl rfl).2 200 ""
      { formattedFile := none, errorMessage := some "parse error", status := FormatStatus.Failed }
      rfl rfl (fun _ => rfl)⟩

/-- C7 counterexample: a backend that does NOT misbehave — it answers 2xx
and its body DOES carry `formattedFile` (the legal empty formatting) —
still makes `formatCode` fail, because `!""` is truthy in JavaScript; so
"fails exactly when the backend misbehaves" is false at this input. -/
theorem formatCode_fails_despite_wellbehaved_backend :
    emptyEchoEnv.post "/work/A.cs" "x"
      = PostOutcome.response 200 ""
          (some { formattedFile := some "", errorMessage := none,
                  status := FormatStatus.Formatted })
    ∧ (formatCode emptyEchoEnv "A.cs" "x" healthyW).1
      = Except.error (FormatError.backendError none) := by
  decide

/-- C9: `formatCode` refreshes `lastAccess` to the current instant and
persists the descriptor as soon as a 2xx body is parsed, BEFORE the
`formattedFile` check — so even a request that fails with the
backend-reported `errorMessage` persists the advanced `lastAccess`,
postponing the idle reap. -/
theorem formatCode_refreshes_lastAccess_on_failure (e : FormatEnv) (w : World) (s : ServerState)
    (fileName contents : String) (status : Nat) (txt : String) (r : FormatResult)
    (hlock : w.lockFile = none)
    (hstate : w.stateFile = some s)
    (hidle : ¬ w.now - s.lastAccess > IDLE_TIMEOUT_MS)
    (halive : w.alive s.pid = true)
    (hresp : isServerResponsive w s.port = true)
    (hst : statusOk status = true)
    (hfalsy : isFalsyStr r.formattedFile = true)
    (hpost : ∀ p, e.post p contents = PostOutcome.response status txt (some r)) :
    (formatCode e fileName contents w).1 = Except.error (FormatError.backendError r.errorMessage)
    ∧ ((formatCode e fileName contents w).2).stateFile
      = some { pid := s.pid, port := s.port, lastAccess := w.now } := by
  have hens : ensureServer e.ensure w = (some s, w) :=
    ensureServer_healthy e.ensure w s hlock hstate hidle halive hresp
  rw [formatCode_falsy e w s fileName contents status txt r hens hst hpost hfalsy]
  exact ⟨rfl, rfl⟩

/-- Witness for C9: on a descriptor last touched at 4000000 with the
clock at 5000000, a failing format request still persists
`lastAccess = 5000000`. -/
theorem formatCode_refreshes_lastAccess_on_failure_witness :
    (formatCode failEnv "A.cs" "x" staleOkW).1
      = Except.error (FormatError.backendError (some "parse error"))
    ∧ ((formatCode failEnv "A.cs" "x" staleOkW).2).stateFile
      = some { pid := 42, port := SERVER_PORT, lastAccess := 5000000 } :=
  formatCode_refreshes_lastAccess_on_failure failEnv staleOkW
    { pid := 42, port := SERVER_PORT, lastAccess := 4000000 } "A.cs" "x" 200 ""
    { formattedFile := none, errorMessage := some "parse error", status := FormatStatus.Failed }
    rfl rfl (by decide) rfl rfl rfl rfl (fun _ => rfl)
